import Mathlib

/-!
A shallow embedding of the litentry/substrate-subxt client library
(`src/lib.rs` and `src/srml/litentry.rs`), together with models of the
collaborators that the repository references but whose sources are not
present (`error.rs`, `metadata.rs`, `rpc.rs`, `srml/system.rs`), modelled
from the specification.

Modelling conventions: the generic chain types `T::Index`, `T::Hash` and
event values are abstracted as `Nat`; byte strings as `List Nat`; futures
are split into their synchronous construction phase (pure state passing)
and an explicit run phase against a transport environment
`net : String → Transport` mapping each endpoint url to the outcome of one
connection attempt at that endpoint.
-/

set_option autoImplicit false

namespace Subxt

/-- Error taxonomy. Modelled from the spec: `error.rs` is not under `src/`; §7 lists
`TransportError`, `MetadataError`, `NotFound` (carrying the offending name),
`EncodingError` and `DecodingError`. -/
inductive Error where
  | transport (msg : String)
  | metadataError
  | notFound (name : String)
  | encoding
  | decoding
  deriving DecidableEq, Repr

/-- A module descriptor. Modelled from the spec: `metadata.rs` is not under `src/`;
§3 says a module owns a positional index and a mapping from call name to positional
call index. -/
structure ModuleMetadata where
  index : Nat
  calls : List (String × Nat)
  deriving DecidableEq, Repr

/-- The metadata registry. Modelled from the spec: `metadata.rs` is not under `src/`;
§3: a mapping from module name to module descriptor. -/
structure Metadata where
  modules : List (String × ModuleMetadata)
  deriving DecidableEq, Repr

/-- Module lookup. Modelled from the spec (§4.1): `module(name) -> ModuleView |
NotFound`, the error carrying the offending name. -/
def Metadata.module (m : Metadata) (name : String) : Except Error ModuleMetadata :=
  match m.modules.lookup name with
  | some md => .ok md
  | none => .error (.notFound name)

/-- An encoded call payload (§4.3): module index, call index, argument bytes. -/
structure EncodedCall where
  bytes : List Nat
  deriving DecidableEq, Repr

/-- Call encoding. Modelled from the spec (§4.1, §4.3): resolves the call index by
name, the not-found error carrying the offending name, and concatenates
`[module_index, call_index, args...]`. -/
def ModuleMetadata.call (m : ModuleMetadata) (name : String) (args : List Nat) :
    Except Error EncodedCall :=
  match m.calls.lookup name with
  | some callIndex => .ok ⟨m.index :: callIndex :: args⟩
  | none => .error (.notFound name)

/-- `ExtrinsicSuccess` from `lib.rs`: block hash, extrinsic hash and the list of
events of one watched submission. -/
structure ExtrinsicSuccess where
  block : Nat
  extrinsic : Nat
  events : List Nat
  deriving DecidableEq, Repr

/-- The node behind the RPC collaborator (§6): the metadata blob and genesis hash it
serves, its key-value storage, per-account nonces, and its responses to the two
submission endpoints (each a function of signer, call, nonce and genesis hash). -/
structure NodeState where
  metadata : Metadata
  genesisHash : Nat
  storage : List Nat → Option (List Nat)
  accountNonce : Nat → Nat
  submitResponse : Nat → EncodedCall → Nat → Nat → Nat
  watchResponse : Nat → EncodedCall → Nat → Nat → ExtrinsicSuccess

/-- One connection attempt to the RPC collaborator either reaches a node or fails at
the transport layer. -/
inductive Transport where
  | up (node : NodeState)
  | down (msg : String)

/-- `Client` from `lib.rs`: endpoint url, genesis hash and the metadata fetched at
construction. -/
structure Client where
  url : String
  genesis_hash : Nat
  metadata : Metadata

/-- `impl Clone for Client` from `lib.rs`: clones each field. A pure function that
takes no transport environment, so no network access or metadata re-fetch occurs. -/
def Client.clone (c : Client) : Client :=
  { url := c.url, genesis_hash := c.genesis_hash, metadata := c.metadata }

/-- `ClientBuilder` from `lib.rs`: an optional rpc address. -/
structure ClientBuilder where
  url : Option String
  deriving DecidableEq, Repr

/-- `ClientBuilder::new` from `lib.rs`. -/
def ClientBuilder.new : ClientBuilder := { url := none }

/-- `ClientBuilder::set_url` from `lib.rs`. -/
def ClientBuilder.set_url (b : ClientBuilder) (url : String) : ClientBuilder :=
  { b with url := some url }

/-- `ClientBuilder::build` from `lib.rs`: connects to the configured url, defaulting
to `ws://127.0.0.1:9944`, then fetches metadata and genesis hash over that
connection. The rpc `metadata()` and `genesis_hash()` endpoints are modelled from
the spec (§6), `rpc.rs` not being under `src/`. -/
def ClientBuilder.build (b : ClientBuilder) (net : String → Transport) :
    Except Error Client :=
  let url := b.url.getD "ws://127.0.0.1:9944"
  match net url with
  | .down msg => .error (.transport msg)
  | .up node =>
    .ok { url := url, genesis_hash := node.genesisHash, metadata := node.metadata }

/-- `Client::connect` from `lib.rs`: one connection attempt at the client's url. -/
def Client.connect (c : Client) (net : String → Transport) : Transport :=
  net c.url

/-- The rpc storage endpoint used by `Client::fetch`. Modelled from the spec:
`rpc.rs` is not under `src/`; §6 `storage(key) -> optional raw bytes` and §4.4:
absence of a value is a legitimate `none`, not an error; present bytes are decoded
via the Binary Codec Adapter, a decode failure is an error. The decoder for the
value type is passed explicitly (the codec is an external collaborator). -/
def Rpc.storage {V : Type} (decode : List Nat → Option V) (node : NodeState)
    (key : List Nat) : Except Error (Option V) :=
  match node.storage key with
  | none => .ok none
  | some bytes =>
    match decode bytes with
    | some v => .ok (some v)
    | none => .error .decoding

/-- `Client::fetch` from `lib.rs`: `self.connect().and_then(|rpc| rpc.storage(key))`. -/
def Client.fetch {V : Type} (decode : List Nat → Option V) (c : Client)
    (net : String → Transport) (key : List Nat) : Except Error (Option V) :=
  match c.connect net with
  | .down msg => .error (.transport msg)
  | .up node => Rpc.storage decode node key

/-- `Client::fetch_or` from `lib.rs`:
`self.fetch(key).map(|value| value.unwrap_or(default))`. -/
def Client.fetch_or {V : Type} (decode : List Nat → Option V) (c : Client)
    (net : String → Transport) (key : List Nat) (default : V) : Except Error V :=
  (c.fetch decode net key).map (fun value => value.getD default)

/-- `Client::fetch_or_default` from `lib.rs`:
`self.fetch(key).map(|value| value.unwrap_or_default())`; the `Default` bound is
rendered as `Inhabited`. -/
def Client.fetch_or_default {V : Type} [Inhabited V] (decode : List Nat → Option V)
    (c : Client) (net : String → Transport) (key : List Nat) : Except Error V :=
  (c.fetch decode net key).map (fun value => value.getD default)

/-- The account-nonce query used by `Client::xt` when no nonce is supplied. Modelled
from the spec: `srml/system.rs` is not under `src/`; §3: the nonce is seeded "by
querying the node's current account nonce at creation time". -/
def Client.account_nonce (c : Client) (net : String → Transport) (account : Nat) :
    Except Error Nat :=
  match c.connect net with
  | .down msg => .error (.transport msg)
  | .up node => .ok (node.accountNonce account)

/-- A signer (`P: Pair` in `lib.rs`); the core only ever uses its public identity,
abstracted as a `Nat`. -/
structure Signer where
  public : Nat
  deriving DecidableEq, Repr

/-- `XtBuilder` from `lib.rs`: a client handle, the owned mutable nonce and the
signer. -/
structure XtBuilder where
  client : Client
  nonce : Nat
  signer : Signer

/-- `Client::xt` from `lib.rs`: clones the client, then either uses the
caller-supplied nonce directly (`future::ok(nonce)`, no connection attempt) or
queries the account nonce of the signer's public identity. -/
def Client.xt (c : Client) (signer : Signer) (nonce : Option Nat)
    (net : String → Transport) : Except Error XtBuilder :=
  let client := c.clone
  (match nonce with
   | some nonce => Except.ok nonce
   | none => c.account_nonce net signer.public).map
    (fun nonce => { client := client, nonce := nonce, signer := signer })

/-- `XtBuilder::metadata` from `lib.rs`: returns the client's metadata. -/
def XtBuilder.metadata (xt : XtBuilder) : Metadata :=
  xt.client.metadata

/-- `XtBuilder::set_nonce` from `lib.rs`. -/
def XtBuilder.set_nonce (xt : XtBuilder) (nonce : Nat) : XtBuilder :=
  { xt with nonce := nonce }

/-- The data captured synchronously by `submit` and `submit_and_watch` before any
network round-trip: the endpoint url of the connection future, the cloned signer,
the call, the pre-increment nonce and the genesis hash. Handing these to the rpc
collaborator is the round-trip itself, performed by the run functions below. -/
structure PendingExtrinsic where
  url : String
  signer : Signer
  call : EncodedCall
  nonce : Nat
  genesis_hash : Nat
  deriving DecidableEq, Repr

/-- `XtBuilder::submit` from `lib.rs`, synchronous phase: clones signer, nonce and
genesis hash, advances the owned nonce by one (`self.set_nonce(nonce + 1)`), and
returns the future that will perform the round-trip with the captured values. -/
def XtBuilder.submit (xt : XtBuilder) (call : EncodedCall) :
    XtBuilder × PendingExtrinsic :=
  let signer := xt.signer
  let nonce := xt.nonce
  let genesis_hash := xt.client.genesis_hash
  (xt.set_nonce (nonce + 1), ⟨xt.client.url, signer, call, nonce, genesis_hash⟩)

/-- `XtBuilder::submit_and_watch` from `lib.rs`, synchronous phase: identical
construction to `submit`; only the round-trip endpoint differs. -/
def XtBuilder.submit_and_watch (xt : XtBuilder) (call : EncodedCall) :
    XtBuilder × PendingExtrinsic :=
  let signer := xt.signer
  let nonce := xt.nonce
  let genesis_hash := xt.client.genesis_hash
  (xt.set_nonce (nonce + 1), ⟨xt.client.url, signer, call, nonce, genesis_hash⟩)

/-- The fire-and-forget round-trip: `rpc.submit_extrinsic` (§6), returning the
extrinsic hash on transport acknowledgment. Modelled from the spec, `rpc.rs` not
being under `src/`. -/
def PendingExtrinsic.runSubmit (p : PendingExtrinsic) (net : String → Transport) :
    Except Error Nat :=
  match net p.url with
  | .down msg => .error (.transport msg)
  | .up node => .ok (node.submitResponse p.signer.public p.call p.nonce p.genesis_hash)

/-- The watched round-trip: `rpc.submit_and_watch_extrinsic` (§6), returning the
`ExtrinsicSuccess` once inclusion is observed. Modelled from the spec, `rpc.rs` not
being under `src/`. -/
def PendingExtrinsic.runWatch (p : PendingExtrinsic) (net : String → Transport) :
    Except Error ExtrinsicSuccess :=
  match net p.url with
  | .down msg => .error (.transport msg)
  | .up node => .ok (node.watchResponse p.signer.public p.call p.nonce p.genesis_hash)

/-- One full `submit` attempt: the synchronous phase followed by awaiting its future
against the given transport environment. -/
def submitRun (xt : XtBuilder) (call : EncodedCall) (net : String → Transport) :
    XtBuilder × Except Error Nat :=
  ((xt.submit call).1, ((xt.submit call).2).runSubmit net)

/-- One full `submit_and_watch` attempt, analogous to `submitRun`. -/
def watchRun (xt : XtBuilder) (call : EncodedCall) (net : String → Transport) :
    XtBuilder × Except Error ExtrinsicSuccess :=
  ((xt.submit_and_watch call).1, ((xt.submit_and_watch call).2).runWatch net)

/-- A sequence of full `submit` attempts, each against its own transport environment
(so individual attempts may succeed or fail independently), threading the builder. -/
def submitRunMany (xt : XtBuilder) :
    List (EncodedCall × (String → Transport)) → XtBuilder × List (Except Error Nat)
  | [] => (xt, [])
  | (call, net) :: rest =>
    let r := submitRun xt call net
    let rest' := submitRunMany r.1 rest
    (rest'.1, r.2 :: rest'.2)

/-- A sequence of full `submit_and_watch` attempts, analogous to `submitRunMany`. -/
def watchRunMany (xt : XtBuilder) :
    List (EncodedCall × (String → Transport)) →
      XtBuilder × List (Except Error ExtrinsicSuccess)
  | [] => (xt, [])
  | (call, net) :: rest =>
    let r := watchRun xt call net
    let rest' := watchRunMany r.1 rest
    (rest'.1, r.2 :: rest'.2)

/-- The synchronous phase of consecutive `submit` calls: the final builder plus the
pending extrinsics in call order. -/
def submitSeq (xt : XtBuilder) :
    List EncodedCall → XtBuilder × List PendingExtrinsic
  | [] => (xt, [])
  | call :: rest =>
    let r := xt.submit call
    let rest' := submitSeq r.1 rest
    (rest'.1, r.2 :: rest'.2)

/-- The result of `register_identity`: either a future that is already an error
(`future::err(err)`, holding no pending network interaction) or the pending
submission. -/
inductive RIResult where
  | failed (e : Error)
  | submitted (p : PendingExtrinsic)
  deriving DecidableEq, Repr

/-- `LitentryCalls::register_identity` from `srml/litentry.rs`: looks up module
`"Litentry"` and call `"register_identity"` (no arguments, encoded as `[]`) in the
builder's metadata; on a lookup error it returns `future::err(err)` without touching
the builder, otherwise it submits the encoded call. -/
def XtBuilder.register_identity (xt : XtBuilder) : XtBuilder × RIResult :=
  match (xt.metadata.module "Litentry").bind
      (fun m => m.call "register_identity" []) with
  | .error err => (xt, .failed err)
  | .ok call =>
    let r := xt.submit call
    (r.1, .submitted r.2)

/-- Awaiting the future returned by `register_identity`: an already-failed future
performs zero transport invocations; a submitted one performs exactly one
round-trip. The second component counts transport invocations (the transport stub
counter of §8). -/
def RIResult.run : RIResult → (String → Transport) → Except Error Nat × Nat
  | .failed e, _ => (.error e, 0)
  | .submitted p, net => (p.runSubmit net, 1)

/-! ## Helper lemmas -/

/-- The builder returned by `submit` advances the nonce by one and keeps the other
fields. -/
theorem submit_fst_eq (xt : XtBuilder) (call : EncodedCall) :
    (xt.submit call).1 = xt.set_nonce (xt.nonce + 1) := rfl

/-- Nonce of a builder after `submitRunMany`, by induction on the steps. -/
theorem submitRunMany_fst_nonce (steps : List (EncodedCall × (String → Transport))) :
    ∀ xt : XtBuilder, (submitRunMany xt steps).1.nonce = xt.nonce + steps.length := by
  induction steps with
  | nil => intro xt; rfl
  | cons s rest ih =>
    intro xt
    obtain ⟨call, net⟩ := s
    simp only [submitRunMany, List.length_cons]
    rw [ih]
    simp only [submitRun, submit_fst_eq, XtBuilder.set_nonce]
    omega

/-- Nonce of a builder after `watchRunMany`, by induction on the steps. -/
theorem watchRunMany_fst_nonce (steps : List (EncodedCall × (String → Transport))) :
    ∀ xt : XtBuilder, (watchRunMany xt steps).1.nonce = xt.nonce + steps.length := by
  induction steps with
  | nil => intro xt; rfl
  | cons s rest ih =>
    intro xt
    obtain ⟨call, net⟩ := s
    simp only [watchRunMany, List.length_cons]
    rw [ih]
    simp only [watchRun, XtBuilder.submit_and_watch, XtBuilder.set_nonce]
    omega

/-- The nonces transmitted by consecutive submissions are the consecutive naturals
starting at the seed nonce. -/
theorem submitSeq_nonces (calls : List EncodedCall) :
    ∀ xt : XtBuilder,
      (submitSeq xt calls).2.map (fun p => p.nonce) =
        List.range' xt.nonce calls.length := by
  induction calls with
  | nil => intro xt; rfl
  | cons call rest ih =>
    intro xt
    simp only [submitSeq, List.map_cons, List.length_cons, List.range'_succ]
    rw [ih]
    rfl

/-- A failing combined module/call lookup always fails with a not-found error
carrying one of the two offending names. -/
theorem module_call_error_shape (m : Metadata) (modName callName : String)
    (args : List Nat) (e : Error)
    (h : (m.module modName).bind (fun md => md.call callName args) = .error e) :
    e = .notFound modName ∨ e = .notFound callName := by
  unfold Metadata.module at h
  cases hm : m.modules.lookup modName with
  | none =>
    rw [hm] at h
    simp only [Except.bind] at h
    exact Or.inl (Except.error.inj h).symm
  | some md =>
    rw [hm] at h
    simp only [Except.bind, ModuleMetadata.call] at h
    cases hc : md.calls.lookup callName with
    | none =>
      rw [hc] at h
      exact Or.inr (Except.error.inj h).symm
    | some ci =>
      rw [hc] at h
      exact absurd h (by simp)

/-! ## Claim theorems -/

/-- C1: each `submit` (and likewise `submit_and_watch`) advances the builder's
observable nonce by exactly one in the synchronous phase, before the network
round-trip; the resulting builder is the same whatever the transport outcome (no
rollback on transport failure); hence after `n` submissions from seed `s` the nonce
equals `s + n` regardless of each call's downstream network outcome. -/
theorem submit_increments_nonce_exactly_once (xt : XtBuilder) (call : EncodedCall)
    (net : String → Transport) (steps : List (EncodedCall × (String → Transport))) :
    (xt.submit call).1.nonce = xt.nonce + 1 ∧
    (xt.submit_and_watch call).1.nonce = xt.nonce + 1 ∧
    (submitRun xt call net).1 = (xt.submit call).1 ∧
    (watchRun xt call net).1 = (xt.submit_and_watch call).1 ∧
    (submitRunMany xt steps).1.nonce = xt.nonce + steps.length ∧
    (watchRunMany xt steps).1.nonce = xt.nonce + steps.length :=
  ⟨rfl, rfl, rfl, rfl, submitRunMany_fst_nonce steps xt, watchRunMany_fst_nonce steps xt⟩

/-- C9: the nonce handed to the rpc collaborator by `submit` and `submit_and_watch`
is the observable nonce immediately before the call (the pre-increment value), so
`k` consecutive submissions from seed `s` transmit exactly the consecutive nonces
`s, s+1, ..., s+k-1`. -/
theorem submit_transmits_preincrement_nonce (xt : XtBuilder) (call : EncodedCall)
    (calls : List EncodedCall) :
    (xt.submit call).2.nonce = xt.nonce ∧
    (xt.submit_and_watch call).2.nonce = xt.nonce ∧
    (submitSeq xt calls).2.map (fun p => p.nonce) =
      List.range' xt.nonce calls.length :=
  ⟨rfl, rfl, submitSeq_nonces calls xt⟩

/-- C2: when the metadata lookup behind `register_identity` fails, the operation
returns the not-found error (carrying one of the two offending names) before any
network access: the returned value is already the failed future, and awaiting it
performs zero transport invocations in every transport environment. -/
theorem register_identity_notfound_before_network (xt : XtBuilder) (e : Error)
    (net : String → Transport)
    (h : (xt.metadata.module "Litentry").bind
        (fun m => m.call "register_identity" []) = .error e) :
    (xt.register_identity).2 = .failed e ∧
    (e = .notFound "Litentry" ∨ e = .notFound "register_identity") ∧
    RIResult.run (xt.register_identity).2 net = (.error e, 0) := by
  have hshape :=
    module_call_error_shape xt.metadata "Litentry" "register_identity" [] e h
  unfold XtBuilder.register_identity
  rw [h]
  exact ⟨rfl, hshape, rfl⟩

/-- C10: on a metadata lookup failure, `register_identity` returns the builder
unchanged — in particular its nonce — because the error path returns before
`submit` is invoked, so no nonce is consumed on a lookup error. -/
theorem register_identity_error_preserves_nonce (xt : XtBuilder) (e : Error)
    (h : (xt.metadata.module "Litentry").bind
        (fun m => m.call "register_identity" []) = .error e) :
    (xt.register_identity).1 = xt ∧ (xt.register_identity).1.nonce = xt.nonce := by
  unfold XtBuilder.register_identity
  rw [h]
  exact ⟨rfl, rfl⟩

/-- C3: on a reachable node, `fetch_or_default` returns the value type's default
exactly when the key is absent, and the decoded stored value — never the default,
when the two differ — when the key is present; `fetch_or` behaves identically with
the caller-supplied default in place of the type default. -/
theorem fetch_or_default_absent_present {V : Type} [Inhabited V]
    (decode : List Nat → Option V) (c : Client) (net : String → Transport)
    (node : NodeState) (key bytes : List Nat) (v d : V)
    (hup : net c.url = .up node) :
    (node.storage key = none →
      Client.fetch_or_default decode c net key = .ok (default : V) ∧
      Client.fetch_or decode c net key d = .ok d) ∧
    (node.storage key = some bytes → decode bytes = some v →
      Client.fetch_or_default decode c net key = .ok v ∧
      Client.fetch_or decode c net key d = .ok v ∧
      (v ≠ default →
        Client.fetch_or_default decode c net key ≠ .ok (default : V))) := by
  constructor
  · intro habs
    constructor
    · simp [Client.fetch_or_default, Client.fetch, Client.connect, Rpc.storage,
        hup, habs, Except.map]
    · simp [Client.fetch_or, Client.fetch, Client.connect, Rpc.storage,
        hup, habs, Except.map]
  · intro hpres hdec
    have hval : Client.fetch_or_default decode c net key = (.ok v : Except Error V) := by
      simp [Client.fetch_or_default, Client.fetch, Client.connect, Rpc.storage,
        hup, hpres, hdec, Except.map]
    have hval2 : Client.fetch_or decode c net key d = (.ok v : Except Error V) := by
      simp [Client.fetch_or, Client.fetch, Client.connect, Rpc.storage,
        hup, hpres, hdec, Except.map]
    refine ⟨hval, hval2, fun hne hcontra => hne ?_⟩
    rw [hval] at hcontra
    exact Except.ok.inj hcontra

/-- C4: `fetch` distinguishes absence from failure: an absent key on a reachable
node yields `.ok none` (absence is not an error), and every error result of
`fetch` is a transport or a decoding failure. -/
theorem fetch_absence_not_error {V : Type} (decode : List Nat → Option V)
    (c : Client) (net : String → Transport) (node : NodeState) (key : List Nat) :
    (net c.url = .up node → node.storage key = none →
      Client.fetch decode c net key = .ok (none : Option V)) ∧
    (∀ e : Error, Client.fetch decode c net key = .error e →
      (∃ msg, e = .transport msg) ∨ e = .decoding) := by
  constructor
  · intro hup habs
    simp [Client.fetch, Client.connect, Rpc.storage, hup, habs]
  · intro e he
    cases hnet : net c.url with
    | down msg =>
      simp only [Client.fetch, Client.connect, hnet] at he
      exact Or.inl ⟨msg, (Except.error.inj he).symm⟩
    | up node2 =>
      simp only [Client.fetch, Client.connect, Rpc.storage, hnet] at he
      cases hs : node2.storage key with
      | none =>
        simp only [hs] at he
        exact absurd he (by simp)
      | some bytes =>
        simp only [hs] at he
        cases hd : decode bytes with
        | none =>
          simp only [hd] at he
          exact Or.inr (Except.error.inj he).symm
        | some v =>
          simp only [hd] at he
          exact absurd he (by simp)

/-- C5: cloning a `Client` is a pure field-wise copy — its signature takes no
transport environment, so no network access or metadata re-fetch can occur — and
the clone's metadata, genesis identifier and endpoint url equal the original's. -/
theorem clone_preserves_fields (c : Client) :
    (c.clone).metadata = c.metadata ∧
    (c.clone).genesis_hash = c.genesis_hash ∧
    (c.clone).url = c.url :=
  ⟨rfl, rfl, rfl⟩

/-- C6: `Client::xt` seeds the builder's nonce from the caller-supplied value when
one is given — using it exactly, in every transport environment including an
unreachable one, hence with no network query — and otherwise queries the node's
account nonce for the signer's public identity and uses that as the seed, failing
with the transport error when the node is unreachable. -/
theorem xt_seeds_nonce (c : Client) (signer : Signer) (n : Nat)
    (net : String → Transport) (node : NodeState) (msg : String) :
    c.xt signer (some n) net = .ok ⟨c.clone, n, signer⟩ ∧
    (net c.url = .up node →
      c.xt signer none net =
        .ok ⟨c.clone, node.accountNonce signer.public, signer⟩) ∧
    (net c.url = .down msg →
      c.xt signer none net = .error (.transport msg)) := by
  refine ⟨rfl, ?_, ?_⟩
  · intro hup
    simp [Client.xt, Client.account_nonce, Client.connect, hup, Except.map]
  · intro hdown
    simp [Client.xt, Client.account_nonce, Client.connect, hdown, Except.map]

/-- `register_identity` never replaces the builder's client handle, on either the
error path (builder returned untouched) or the submit path (`set_nonce` keeps the
client field). -/
theorem register_identity_fst_client (xt : XtBuilder) :
    (xt.register_identity).1.client = xt.client := by
  unfold XtBuilder.register_identity
  cases h : (xt.metadata.module "Litentry").bind
      (fun m => m.call "register_identity" []) with
  | error e => rfl
  | ok call => rfl

/-- C7: a client's metadata and genesis identifier are immutable after
construction: every builder operation (`submit`, `submit_and_watch`, `set_nonce`,
`register_identity`) leaves the contained client's `metadata` and `genesis_hash`
fields unchanged; `XtBuilder::metadata` reads the client's stored metadata; a
builder obtained from `Client::xt` carries the client's fields unchanged; and a
successfully built client's metadata and genesis hash are exactly the values
fetched at construction from the node it connected to. -/
theorem client_metadata_genesis_immutable (xt : XtBuilder) (call : EncodedCall)
    (n : Nat) (c c2 : Client) (signer : Signer) (nonce : Option Nat)
    (net : String → Transport) (b : ClientBuilder) (xt2 : XtBuilder)
    (node : NodeState) :
    (xt.submit call).1.client.metadata = xt.client.metadata ∧
    (xt.submit call).1.client.genesis_hash = xt.client.genesis_hash ∧
    (xt.submit_and_watch call).1.client.metadata = xt.client.metadata ∧
    (xt.submit_and_watch call).1.client.genesis_hash = xt.client.genesis_hash ∧
    (xt.set_nonce n).client.metadata = xt.client.metadata ∧
    (xt.set_nonce n).client.genesis_hash = xt.client.genesis_hash ∧
    (xt.register_identity).1.client.metadata = xt.client.metadata ∧
    (xt.register_identity).1.client.genesis_hash = xt.client.genesis_hash ∧
    xt.metadata = xt.client.metadata ∧
    (c.xt signer nonce net = .ok xt2 →
      xt2.client.metadata = c.metadata ∧ xt2.client.genesis_hash = c.genesis_hash) ∧
    (net (b.url.getD "ws://127.0.0.1:9944") = .up node → b.build net = .ok c2 →
      c2.metadata = node.metadata ∧ c2.genesis_hash = node.genesisHash) := by
  refine ⟨rfl, rfl, rfl, rfl, rfl, rfl,
    congrArg Client.metadata (register_identity_fst_client xt),
    congrArg Client.genesis_hash (register_identity_fst_client xt),
    rfl, ?_, ?_⟩
  · intro h
    cases nonce with
    | some m =>
      simp only [Client.xt, Except.map] at h
      rw [← Except.ok.inj h]
      exact ⟨rfl, rfl⟩
    | none =>
      simp only [Client.xt, Client.account_nonce, Client.connect] at h
      cases hnet : net c.url with
      | down msg =>
        simp only [hnet, Except.map] at h
        exact absurd h (by simp)
      | up node2 =>
        simp only [hnet, Except.map] at h
        rw [← Except.ok.inj h]
        exact ⟨rfl, rfl⟩
  · intro hup hbuild
    simp only [ClientBuilder.build, hup] at hbuild
    rw [← Except.ok.inj hbuild]
    exact ⟨rfl, rfl⟩

/-- The build outcome is a function of the transport at the configured endpoint
only: two environments agreeing there produce identical clients. -/
theorem build_depends_only_on_endpoint (b : ClientBuilder)
    (net net2 : String → Transport)
    (h : net (b.url.getD "ws://127.0.0.1:9944") =
      net2 (b.url.getD "ws://127.0.0.1:9944")) :
    b.build net = b.build net2 := by
  simp only [ClientBuilder.build, h]

/-- A successfully built client records the configured endpoint as its url. -/
theorem build_ok_url (b : ClientBuilder) (net : String → Transport) (c : Client)
    (h : b.build net = .ok c) : c.url = b.url.getD "ws://127.0.0.1:9944" := by
  simp only [ClientBuilder.build] at h
  cases hx : net (b.url.getD "ws://127.0.0.1:9944") with
  | down msg =>
    simp only [hx] at h
    exact absurd h (by simp)
  | up node =>
    simp only [hx] at h
    rw [← Except.ok.inj h]

/-- C8: `build` on a builder on which `set_url` was never called connects to
`ws://127.0.0.1:9944`, and after `set_url u` it connects to `u`: the build outcome
depends on the transport environment only through that endpoint, and a
successfully built client records that endpoint as its url. -/
theorem build_connects_to_configured_url (u : String)
    (net net2 : String → Transport) (c : Client) :
    (net "ws://127.0.0.1:9944" = net2 "ws://127.0.0.1:9944" →
      ClientBuilder.new.build net = ClientBuilder.new.build net2) ∧
    (ClientBuilder.new.build net = .ok c → c.url = "ws://127.0.0.1:9944") ∧
    (net u = net2 u →
      (ClientBuilder.new.set_url u).build net =
        (ClientBuilder.new.set_url u).build net2) ∧
    ((ClientBuilder.new.set_url u).build net = .ok c → c.url = u) :=
  ⟨fun h => build_depends_only_on_endpoint ClientBuilder.new net net2 h,
   fun h => build_ok_url ClientBuilder.new net c h,
   fun h => build_depends_only_on_endpoint (ClientBuilder.new.set_url u) net net2 h,
   fun h => build_ok_url (ClientBuilder.new.set_url u) net c h⟩

/-! ## Concrete witness material -/

/-- A concrete decoder for witnesses: the first byte of the stored value. -/
def decodeHead : List Nat → Option Nat := List.head?

/-- A concrete node used by the witnesses: one module, one storage entry at key
`[1]` holding bytes `[7]`, account nonces `account + 10`. -/
def nodeW : NodeState where
  metadata := ⟨[("Balances", ⟨2, [("transfer", 1)]⟩)]⟩
  genesisHash := 42
  storage := fun key => if key = [1] then some [7] else none
  accountNonce := fun account => account + 10
  submitResponse := fun _ _ _ _ => 99
  watchResponse := fun _ _ _ _ => ⟨1, 2, [3]⟩

/-- A transport environment where every endpoint reaches `nodeW`. -/
def netUp : String → Transport := fun _ => .up nodeW

/-- A transport environment where every endpoint is unreachable. -/
def netDown : String → Transport := fun _ => .down "offline"

/-- A transport environment reaching `nodeW` only at the default endpoint. -/
def netMixed : String → Transport := fun u =>
  if u = "ws://127.0.0.1:9944" then .up nodeW else .down "offline"

/-- A concrete client whose metadata lacks the `Litentry` module. -/
def clientW : Client := ⟨"ws://node.example", 42, ⟨[("Balances", ⟨2, [("transfer", 1)]⟩)]⟩⟩

/-- A concrete builder over `clientW` with seed nonce 5 and signer 7. -/
def xtW : XtBuilder := ⟨clientW, 5, ⟨7⟩⟩

/-- The builder produced by `clientW.xt ⟨7⟩ (some 5) _`. -/
def xt2W : XtBuilder := ⟨clientW.clone, 5, ⟨7⟩⟩

/-- The client produced by `ClientBuilder.new.build netUp`. -/
def c2W : Client := ⟨"ws://127.0.0.1:9944", 42, nodeW.metadata⟩

/-- The client produced by building with the url set to `clientW`'s endpoint. -/
def cAltW : Client := ⟨"ws://node.example", 42, nodeW.metadata⟩

/-- A concrete encoded call. -/
def callW : EncodedCall := ⟨[2, 1]⟩

/-! ## Witnesses -/

/-- Witness for C2 on the concrete builder `xtW`, whose metadata has no
`Litentry` module. -/
theorem register_identity_notfound_witness :
    (xtW.register_identity).2 = .failed (.notFound "Litentry") ∧
    ((Error.notFound "Litentry") = .notFound "Litentry" ∨
      (Error.notFound "Litentry") = .notFound "register_identity") ∧
    RIResult.run (xtW.register_identity).2 netDown =
      (.error (.notFound "Litentry"), 0) :=
  register_identity_notfound_before_network xtW (.notFound "Litentry") netDown rfl

/-- Witness for C10 on the concrete builder `xtW`. -/
theorem register_identity_error_preserves_nonce_witness :
    (xtW.register_identity).1 = xtW ∧ (xtW.register_identity).1.nonce = xtW.nonce :=
  register_identity_error_preserves_nonce xtW (.notFound "Litentry") rfl

/-- Witness for C3: key `[0]` is absent from `nodeW` and key `[1]` holds bytes
decoding to `7`. -/
theorem fetch_or_default_absent_present_witness :
    Client.fetch_or_default decodeHead clientW netUp [0] = .ok (default : Nat) ∧
    Client.fetch_or decodeHead clientW netUp [0] 3 = .ok 3 ∧
    Client.fetch_or_default decodeHead clientW netUp [1] = .ok 7 ∧
    Client.fetch_or decodeHead clientW netUp [1] 3 = .ok 7 ∧
    Client.fetch_or_default decodeHead clientW netUp [1] ≠ .ok (default : Nat) := by
  have ha := (fetch_or_default_absent_present decodeHead clientW netUp nodeW
    [0] [] 0 3 rfl).1 (by decide)
  have hb := (fetch_or_default_absent_present decodeHead clientW netUp nodeW
    [1] [7] 7 3 rfl).2 (by decide) rfl
  exact ⟨ha.1, ha.2, hb.1, hb.2.1, hb.2.2 (by decide)⟩

/-- Witness for C4: absence at key `[0]` yields `.ok none`; a transport failure
yields the transport error. -/
theorem fetch_absence_not_error_witness :
    Client.fetch decodeHead clientW netUp [0] = .ok (none : Option Nat) ∧
    ((∃ msg, Error.transport "offline" = Error.transport msg) ∨
      Error.transport "offline" = .decoding) :=
  ⟨(fetch_absence_not_error decodeHead clientW netUp nodeW [0]).1 rfl (by decide),
   (fetch_absence_not_error decodeHead clientW netDown nodeW [0]).2
     (.transport "offline") rfl⟩

/-- Witness for C6 on `clientW`: an explicit seed is used verbatim even on a dead
transport; with no seed the node's account nonce `7 + 10` is used, and a dead
transport surfaces the transport error. -/
theorem xt_seeds_nonce_witness :
    clientW.xt ⟨7⟩ (some 5) netDown = .ok ⟨clientW.clone, 5, ⟨7⟩⟩ ∧
    clientW.xt ⟨7⟩ none netUp = .ok ⟨clientW.clone, 17, ⟨7⟩⟩ ∧
    clientW.xt ⟨7⟩ none netDown = .error (.transport "offline") := by
  have h1 := xt_seeds_nonce clientW ⟨7⟩ 5 netDown nodeW "offline"
  have h2 := xt_seeds_nonce clientW ⟨7⟩ 5 netUp nodeW "offline"
  exact ⟨h1.1, h2.2.1 rfl, h1.2.2 rfl⟩

/-- Witness for C7 on concrete inputs: the builder operations leave `xtW`'s client
fields intact, `Client::xt` hands `clientW`'s fields to `xt2W`, and the built
client `c2W` carries `nodeW`'s metadata and genesis hash. -/
theorem client_metadata_genesis_immutable_witness :
    (xtW.submit callW).1.client.metadata = xtW.client.metadata ∧
    (xtW.register_identity).1.client.genesis_hash = xtW.client.genesis_hash ∧
    xt2W.client.metadata = clientW.metadata ∧
    c2W.metadata = nodeW.metadata ∧ c2W.genesis_hash = nodeW.genesisHash := by
  have h := client_metadata_genesis_immutable xtW callW 9 clientW c2W ⟨7⟩ (some 5)
    netUp ClientBuilder.new xt2W nodeW
  have hxt := h.2.2.2.2.2.2.2.2.2.1 rfl
  have hbuild := h.2.2.2.2.2.2.2.2.2.2 rfl rfl
  exact ⟨h.1, h.2.2.2.2.2.2.2.1, hxt.1, hbuild.1, hbuild.2⟩

/-- Witness for C8: the default build consults the default endpoint (environments
agreeing there build identically) and records it as the url; a configured build
records the configured url. -/
theorem build_connects_to_configured_url_witness :
    ClientBuilder.new.build netUp = ClientBuilder.new.build netMixed ∧
    c2W.url = "ws://127.0.0.1:9944" ∧
    (ClientBuilder.new.set_url "ws://node.example").build netUp =
      (ClientBuilder.new.set_url "ws://node.example").build netUp ∧
    cAltW.url = "ws://node.example" := by
  have h := build_connects_to_configured_url "ws://node.example" netUp netMixed c2W
  have h2 := build_connects_to_configured_url "ws://node.example" netUp netUp cAltW
  exact ⟨h.1 (by simp [netUp, netMixed]), h.2.1 rfl, h2.2.2.1 rfl, h2.2.2.2 rfl⟩

end Subxt
